import Mathlib

/-!
Verification of the upload-processing pipeline of the `parle` repository
(`apps/api/src/routes/auth.ts` upload route and
`apps/api/src/routes/transcripts.ts` recovery routes), embedded shallowly:
the Prisma-backed table is a list of rows, the external collaborators
(object storage, transcriber, summarizer) are explicit outcome arguments,
and each HTTP handler becomes a pure function from the database and those
outcomes to the new database and a result code.
-/

namespace Parle

/-- The `status` column: `'initial' | 'transcribed' | 'summarized' | 'failed'`
(enum `TranscriptStatus` in the Prisma schema). -/
inductive Status where
  | initial
  | transcribed
  | summarized
  | failed
deriving DecidableEq, Repr

/-- One row of the `Conversation` table.  `storagePath` is `TEXT NOT NULL`
(empty string means "no blob stored"); `transcriptText`, `summaryText` and
`errorMessage` are nullable `TEXT`; `updatedAt` is modelled as a natural
number timestamp. -/
structure Conversation where
  id : String
  userId : String
  originalFilename : String
  storagePath : String
  mimeType : String
  sizeBytes : Nat
  status : Status
  transcriptText : Option String
  summaryText : Option String
  errorMessage : Option String
  updatedAt : Nat
deriving DecidableEq, Repr

/-- The database: the `Conversation` table as a list of rows. -/
abbrev DB := List Conversation

/-- `prisma.conversation.findFirst({ where: { id, userId } })`: the first row
matching both the conversation id and the owner id. -/
def findFirst (db : DB) (id userId : String) : Option Conversation :=
  db.find? (fun c => c.id == id && c.userId == userId)

/-- `prisma.conversation.update({ where: { id }, data })`: apply the field
update `f` to every row whose `id` matches. -/
def updateConv (db : DB) (id : String) (f : Conversation → Conversation) : DB :=
  db.map (fun c => if c.id == id then f c else c)

/-- `prisma.conversation.delete({ where: { id } })`: remove the row(s) with
the given id. -/
def deleteRow (db : DB) (id : String) : DB :=
  db.filter (fun c => !(c.id == id))

/-- Outcome of an external collaborator call (`transcribeAudio`,
`summarizeTranscript`, `storageService.uploadFile`): either a thrown error
with its message, or a result string. -/
abbrev CallResult := Except String String

/-! ## delete (`transcripts.delete('/:id')`) -/

/-- Result of the DELETE handler: 404, or row deleted, recording whether
`storageService.deleteFile` was attempted. -/
inductive DeleteOutcome where
  | notFound
  | deleted (blobDeleteAttempted : Bool)
deriving DecidableEq, Repr

/-- `transcripts.delete('/:id')`: find the owned row; if present, attempt
blob deletion only when `conversation.status !== 'initial' &&
conversation.storagePath` (a JS string is truthy iff non-empty; a blob
deletion failure is swallowed and has no effect on the row), then always
delete the database row. -/
def deleteConversation (db : DB) (id userId : String) : DB × DeleteOutcome :=
  match findFirst db id userId with
  | none => (db, .notFound)
  | some conv =>
      let attempt : Bool := conv.status != Status.initial && conv.storagePath != ""
      (deleteRow db id, .deleted attempt)

/-! ## regenerate-transcript (`transcripts.put('/:id/regenerate-transcript')`) -/

/-- Result of the regenerate-transcript handler: 404, 400 ("No audio file
available"), 422 (transcription threw), or 200. -/
inductive RegenTranscriptOutcome where
  | notFound
  | noAudio
  | transcriptionFailed
  | ok
deriving DecidableEq, Repr

/-- `transcripts.put('/:id/regenerate-transcript')`: find the owned row;
reject with 400 when `!conversation.storagePath` (empty string); otherwise
call `transcribeAudio(conversation.storagePath, id)`.  On success update
`{transcriptText, summaryText: null, status: 'transcribed', errorMessage:
null, updatedAt}`; on a thrown error update `{status: 'failed',
errorMessage: 'Regeneration failed: ...', updatedAt}`. -/
def regenerateTranscript (db : DB) (id userId : String)
    (transcribeRes : CallResult) (now : Nat) : DB × RegenTranscriptOutcome :=
  match findFirst db id userId with
  | none => (db, .notFound)
  | some conv =>
      if conv.storagePath == "" then (db, .noAudio)
      else
        match transcribeRes with
        | .ok t =>
            (updateConv db id (fun c =>
              { c with transcriptText := some t, summaryText := none,
                       status := Status.transcribed, errorMessage := none,
                       updatedAt := now }), .ok)
        | .error msg =>
            (updateConv db id (fun c =>
              { c with status := Status.failed,
                       errorMessage := some ("Regeneration failed: " ++ msg),
                       updatedAt := now }), .transcriptionFailed)

/-! ## regenerate-summary (`transcripts.put('/:id/regenerate-summary')`) -/

/-- Result of the regenerate-summary handler: 404, 400 ("No transcript
available"), 422 (summarization threw; no row write), or 200. -/
inductive RegenSummaryOutcome where
  | notFound
  | noTranscript
  | summarizationFailed
  | ok
deriving DecidableEq, Repr

/-- JavaScript's `String.prototype.trim()`: strip leading and trailing
whitespace. -/
def jsTrim (s : String) : String :=
  String.mk (((s.toList.dropWhile Char.isWhitespace).reverse.dropWhile
    Char.isWhitespace).reverse)

/-- The guard `!conversation.transcriptText ||
conversation.transcriptText.trim().length === 0`: null or blank. -/
def transcriptMissing (o : Option String) : Bool :=
  match o with
  | none => true
  | some t => jsTrim t == ""

/-- `transcripts.put('/:id/regenerate-summary')`: find the owned row; reject
with 400 when the transcript is null or blank; otherwise call
`summarizeTranscript`.  On success update `{summaryText, status:
'summarized', errorMessage: null, updatedAt}`; on a thrown error write
nothing and return 422. -/
def regenerateSummary (db : DB) (id userId : String)
    (summarizeRes : CallResult) (now : Nat) : DB × RegenSummaryOutcome :=
  match findFirst db id userId with
  | none => (db, .notFound)
  | some conv =>
      if transcriptMissing conv.transcriptText then (db, .noTranscript)
      else
        match summarizeRes with
        | .ok s =>
            (updateConv db id (fun c =>
              { c with summaryText := some s, status := Status.summarized,
                       errorMessage := none, updatedAt := now }), .ok)
        | .error _ => (db, .summarizationFailed)

/-! ## File validation (shared by the upload and re-upload routes) -/

/-- The multipart `audio` field: name, declared MIME type, byte size. -/
structure AudioFile where
  name : String
  type : String
  size : Nat
deriving DecidableEq, Repr

/-- Suffix of a character list starting at its last `'.'`, if any. -/
def lastDotSuffix : List Char → Option (List Char)
  | [] => none
  | c :: cs =>
      match lastDotSuffix cs with
      | some e => some e
      | none => if c = '.' then some (c :: cs) else none

/-- Node's `path.extname`: the extension of the last path component, from
its last `'.'` to the end; `""` when there is no dot or the only dot is the
leading character of the component (`'.bashrc'`). -/
def extname (p : String) : String :=
  let base := (p.toList.reverse.takeWhile (fun c => c ≠ '/')).reverse
  match base with
  | [] => ""
  | c :: rest =>
      let tail := if c = '.' then rest else c :: rest
      match lastDotSuffix tail with
      | some e => String.mk e
      | none => ""

/-- ASCII lowercasing, for `fileExtension.toLowerCase()`. -/
def lowerAscii (s : String) : String := String.mk (s.toList.map Char.toLower)

/-- `const allowedTypes = ['audio/mpeg', 'audio/mp3', 'audio/mp4',
'audio/x-m4a', 'video/mp4']`. -/
def allowedTypes : List String :=
  ["audio/mpeg", "audio/mp3", "audio/mp4", "audio/x-m4a", "video/mp4"]

/-- `const allowedExtensions = ['.mp3', '.mp4', '.m4a']`. -/
def allowedExtensions : List String := [".mp3", ".mp4", ".m4a"]

/-- `const maxSize = 25 * 1024 * 1024` (25 MiB, the Whisper limit). -/
def maxSizeBytes : Nat := 25 * 1024 * 1024

/-- The file-type guard: the handler rejects when
`!allowedTypes.includes(audioFile.type) &&
!allowedExtensions.includes(fileExtension.toLowerCase())`, so the file is
allowed iff its MIME type or lowercased extension is listed. -/
def fileTypeAllowed (f : AudioFile) : Bool :=
  allowedTypes.contains f.type || allowedExtensions.contains (lowerAscii (extname f.name))

/-- The storage key derived for a conversation:
`` `uploads/user/${userId}/${id}${fileExtension}` ``.
`R2StorageService.uploadFile` returns exactly the key it was passed, so on
success `storagePath` is set to this string. -/
def objectKeyFor (userId id filename : String) : String :=
  "uploads/user/" ++ userId ++ "/" ++ id ++ extname filename

/-! ## submit (`upload.post('/')`) -/

/-- Result of the upload handler (for calls that do supply a file): 400
invalid type, 400 too large, 500 from the outer catch when the blob store
throws, 500 when transcription throws, or 200 (also when summarization
threw — that error is only logged). -/
inductive SubmitOutcome where
  | invalidType
  | tooLarge
  | storeFailed
  | transcriptionFailed
  | ok
deriving DecidableEq, Repr

/-- Output of the upload handler: the new table, the HTTP-level outcome,
and whether `storageService.uploadFile` was invoked. -/
structure SubmitOut where
  db : DB
  res : SubmitOutcome
  blobPutAttempted : Bool
deriving Repr

/-- The row `prisma.conversation.create` inserts before the blob is stored:
`status: 'initial'`, `storagePath: ''`, metadata from the request. -/
def createdRow (userId : String) (file : AudioFile) (newId : String)
    (now : Nat) : Conversation :=
  { id := newId, userId := userId, originalFilename := file.name,
    storagePath := "", mimeType := file.type, sizeBytes := file.size,
    status := Status.initial, transcriptText := none, summaryText := none,
    errorMessage := none, updatedAt := now }

/-- `upload.post('/')`: validate type then size; create the row with
`status: 'initial'`, `storagePath: ''`; call `uploadFile` with the derived
key (a throw escapes to the outer catch, leaving the row as created);
persist the key; call `transcribeAudio` (on throw: `status: 'failed'`,
`errorMessage`, 500); on success set `transcriptText`, `status:
'transcribed'`; call `summarizeTranscript` (on throw: log only); on success
set `summaryText`, `status: 'summarized'`. -/
def submit (db : DB) (userId : String) (file : AudioFile) (newId : String)
    (storeRes : Except String Unit) (transcribeRes summarizeRes : CallResult)
    (now : Nat) : SubmitOut :=
  if !(fileTypeAllowed file) then ⟨db, .invalidType, false⟩
  else if file.size > maxSizeBytes then ⟨db, .tooLarge, false⟩
  else
    let db1 := db ++ [createdRow userId file newId now]
    let objectKey := objectKeyFor userId newId file.name
    match storeRes with
    | .error _ => ⟨db1, .storeFailed, true⟩
    | .ok _ =>
        let db2 := updateConv db1 newId (fun c =>
          { c with storagePath := objectKey, updatedAt := now })
        match transcribeRes with
        | .error msg =>
            ⟨updateConv db2 newId (fun c =>
              { c with status := Status.failed, errorMessage := some msg,
                       updatedAt := now }), .transcriptionFailed, true⟩
        | .ok t =>
            let db3 := updateConv db2 newId (fun c =>
              { c with transcriptText := some t, status := Status.transcribed,
                       updatedAt := now })
            match summarizeRes with
            | .error _ => ⟨db3, .ok, true⟩
            | .ok s =>
                ⟨updateConv db3 newId (fun c =>
                  { c with summaryText := some s, status := Status.summarized,
                           updatedAt := now }), .ok, true⟩

/-! ## re-upload (`transcripts.post('/:id/re-upload')`) -/

/-- The eligibility rejection guard: `conversation.status !== 'initial' ||
(conversation.storagePath && conversation.storagePath.trim() !== '')`. -/
def reUploadIneligible (c : Conversation) : Bool :=
  c.status != Status.initial || (c.storagePath != "" && jsTrim c.storagePath != "")

/-- Result of the re-upload handler: 404, 400 ("not in a failed upload
state"), 400 invalid type, 400 too large, 500 from the outer catch when the
blob store throws, 422 when transcription throws, or 200. -/
inductive ReUploadOutcome where
  | notFound
  | notEligible
  | invalidType
  | tooLarge
  | storeFailed
  | transcriptionFailed
  | ok
deriving DecidableEq, Repr

/-- Output of the re-upload handler: the new table, the HTTP-level outcome,
and whether `storageService.uploadFile` was invoked. -/
structure ReUploadOut where
  db : DB
  res : ReUploadOutcome
  blobPutAttempted : Bool
deriving Repr

/-- `transcripts.post('/:id/re-upload')`: find the owned row; reject unless
`status === 'initial'` and `storagePath` is empty or blank; validate the new
file's type then size; call `uploadFile` with a freshly derived key (a throw
escapes to the outer catch before any row write); update the metadata and
`storagePath`, clearing `errorMessage`; then run the same
transcribe→summarize continuation as the upload route (transcription throw:
`status: 'failed'`, prefixed `errorMessage`, 422; summarization throw: log
only). -/
def reUpload (db : DB) (id userId : String) (file : AudioFile)
    (storeRes : Except String Unit) (transcribeRes summarizeRes : CallResult)
    (now : Nat) : ReUploadOut :=
  match findFirst db id userId with
  | none => ⟨db, .notFound, false⟩
  | some conv =>
      if reUploadIneligible conv then ⟨db, .notEligible, false⟩
      else if !(fileTypeAllowed file) then ⟨db, .invalidType, false⟩
      else if file.size > maxSizeBytes then ⟨db, .tooLarge, false⟩
      else
        let objectKey := objectKeyFor userId id file.name
        match storeRes with
        | .error _ => ⟨db, .storeFailed, true⟩
        | .ok _ =>
            let db1 := updateConv db id (fun c =>
              { c with originalFilename := file.name, storagePath := objectKey,
                       mimeType := file.type, sizeBytes := file.size,
                       errorMessage := none, updatedAt := now })
            match transcribeRes with
            | .error msg =>
                ⟨updateConv db1 id (fun c =>
                  { c with status := Status.failed,
                           errorMessage := some ("Transcription failed: " ++ msg),
                           updatedAt := now }), .transcriptionFailed, true⟩
            | .ok t =>
                let db2 := updateConv db1 id (fun c =>
                  { c with transcriptText := some t,
                           status := Status.transcribed, updatedAt := now })
                match summarizeRes with
                | .error _ => ⟨db2, .ok, true⟩
                | .ok s =>
                    ⟨updateConv db2 id (fun c =>
                      { c with summaryText := some s,
                               status := Status.summarized,
                               updatedAt := now }), .ok, true⟩

/-! ## Stated invariants and concrete records -/

/-- §3 invariant: `summaryText` is non-null only when `status == summarized`. -/
def summaryInvariant (c : Conversation) : Prop :=
  c.summaryText ≠ none → c.status = Status.summarized

instance (c : Conversation) : Decidable (summaryInvariant c) := by
  unfold summaryInvariant
  infer_instance

/-- A mid-pipeline record: `status = 'initial'` with a non-empty storage
key (blob stored, transcription not yet run). -/
def deleteCx : Conversation :=
  { id := "cx1", userId := "u1", originalFilename := "a.mp3",
    storagePath := "uploads/user/u1/cx1.mp3", mimeType := "audio/mpeg",
    sizeBytes := 4, status := Status.initial, transcriptText := none,
    summaryText := none, errorMessage := none, updatedAt := 0 }

/-- A fully summarized record with a non-null summary. -/
def summarizedCx : Conversation :=
  { id := "cx2", userId := "u2", originalFilename := "b.mp3",
    storagePath := "uploads/user/u2/cx2.mp3", mimeType := "audio/mpeg",
    sizeBytes := 5, status := Status.summarized,
    transcriptText := some "hello world", summaryText := some "hello",
    errorMessage := none, updatedAt := 1 }

/-- A record with `status = 'initial'` and a whitespace-only storage key. -/
def overlapCx : Conversation :=
  { id := "cx3", userId := "u3", originalFilename := "c.mp3",
    storagePath := " ", mimeType := "audio/mpeg", sizeBytes := 6,
    status := Status.initial, transcriptText := none, summaryText := none,
    errorMessage := none, updatedAt := 2 }

/-- A record in the re-upload-eligible state. -/
def initialCx : Conversation :=
  { id := "cx4", userId := "u4", originalFilename := "e.mp3",
    storagePath := "", mimeType := "audio/mpeg", sizeBytes := 7,
    status := Status.initial, transcriptText := none, summaryText := none,
    errorMessage := none, updatedAt := 3 }

/-- A small valid audio file. -/
def sampleFile : AudioFile := { name := "d.mp3", type := "audio/mpeg", size := 3 }

/-- An oversized (30 MB) audio file. -/
def bigFile : AudioFile :=
  { name := "big.mp3", type := "audio/mpeg", size := 30 * 1024 * 1024 }

/-! ## Helper lemmas -/

theorem findFirst_updateConv (db : DB) (id uid : String)
    (f : Conversation → Conversation) (conv : Conversation)
    (hid : ∀ c, (f c).id = c.id) (huid : ∀ c, (f c).userId = c.userId)
    (hfind : findFirst db id uid = some conv) :
    findFirst (updateConv db id f) id uid = some (f conv) := by
  have hp : (fun c : Conversation => c.id == id && c.userId == uid) ∘
      (fun c => if c.id == id then f c else c) =
      fun c : Conversation => c.id == id && c.userId == uid := by
    funext c
    by_cases h : c.id == id
    · simp [Function.comp, h, hid, huid]
    · simp [Function.comp, h]
  have hcid : conv.id = id := by
    have hpc := List.find?_some hfind
    simp at hpc
    exact hpc.1
  unfold findFirst updateConv at *
  rw [List.find?_map, hp, hfind]
  simp [hcid]

theorem findFirst_append_fresh (db : DB) (nc : Conversation) (uid : String)
    (hfresh : ∀ c ∈ db, c.id ≠ nc.id) (huid : nc.userId = uid) :
    findFirst (db ++ [nc]) nc.id uid = some nc := by
  unfold findFirst
  rw [List.find?_append]
  have h1 : db.find? (fun c => c.id == nc.id && c.userId == uid) = none := by
    rw [List.find?_eq_none]
    intro c hc
    simp [hfresh c hc]
  rw [h1]
  simp [huid]

theorem deleteRow_not_mem (db : DB) (id : String) :
    ∀ c ∈ deleteRow db id, c.id ≠ id := by
  intro c hc
  unfold deleteRow at hc
  simpa using (List.mem_filter.mp hc).2

/-- `jsTrim ""` is the empty string. -/
theorem jsTrim_empty : jsTrim "" = "" := rfl

theorem objectKeyFor_ne_empty (u i n : String) : objectKeyFor u i n ≠ "" := by
  intro h
  have hlen := congrArg String.length h
  simp only [objectKeyFor] at hlen
  simp only [String.length_append] at hlen
  have h13 : ("uploads/user/" : String).length = 13 := rfl
  have h0 : ("" : String).length = 0 := rfl
  omega

/-- The re-upload eligibility guard passes exactly when the status is
`initial` and the storage key is empty or blank. -/
theorem reUploadIneligible_false_iff (c : Conversation) :
    reUploadIneligible c = false ↔
      (c.status = Status.initial ∧ jsTrim c.storagePath = "") := by
  unfold reUploadIneligible
  constructor
  · intro h
    rw [Bool.or_eq_false_iff] at h
    obtain ⟨h1, h2⟩ := h
    refine ⟨by simpa using h1, ?_⟩
    rw [Bool.and_eq_false_iff] at h2
    rcases h2 with h2 | h2
    · have hsp : c.storagePath = "" := by simpa using h2
      rw [hsp]
      exact jsTrim_empty
    · simpa using h2
  · rintro ⟨h1, h2⟩
    rw [Bool.or_eq_false_iff]
    refine ⟨by simpa using h1, ?_⟩
    rw [Bool.and_eq_false_iff]
    right
    simpa using h2

theorem findFirst_mem_id (db : DB) (id uid : String) (conv : Conversation)
    (h : findFirst db id uid = some conv) :
    conv ∈ db ∧ conv.id = id ∧ conv.userId = uid := by
  unfold findFirst at h
  have hp := List.find?_some h
  simp at hp
  exact ⟨List.mem_of_find?_eq_some h, hp.1, hp.2⟩

/-! Per-branch characterizations of `submit` on a validated file. -/

theorem submit_run_storeFail (db : DB) (userId : String) (file : AudioFile)
    (newId : String) (e : String) (tRes sRes : CallResult) (now : Nat)
    (ht : fileTypeAllowed file = true) (hs : ¬ file.size > maxSizeBytes)
    (hfresh : ∀ c ∈ db, c.id ≠ newId) :
    findFirst (submit db userId file newId (Except.error e) tRes sRes now).db
        newId userId = some (createdRow userId file newId now) ∧
    (submit db userId file newId (Except.error e) tRes sRes now).res =
      SubmitOutcome.storeFailed := by
  unfold submit
  simp only [ht, Bool.not_true, Bool.false_eq_true, if_false, hs]
  exact ⟨findFirst_append_fresh db (createdRow userId file newId now) userId
    hfresh rfl, trivial⟩

theorem submit_run_transcribeFail (db : DB) (userId : String) (file : AudioFile)
    (newId : String) (msg : String) (sRes : CallResult) (now : Nat)
    (ht : fileTypeAllowed file = true) (hs : ¬ file.size > maxSizeBytes)
    (hfresh : ∀ c ∈ db, c.id ≠ newId) :
    findFirst (submit db userId file newId (Except.ok ()) (Except.error msg)
        sRes now).db newId userId =
      some { createdRow userId file newId now with
             storagePath := objectKeyFor userId newId file.name,
             status := Status.failed, errorMessage := some msg } ∧
    (submit db userId file newId (Except.ok ()) (Except.error msg) sRes now).res =
      SubmitOutcome.transcriptionFailed := by
  unfold submit
  simp only [ht, Bool.not_true, Bool.false_eq_true, if_false, hs]
  have h0 := findFirst_append_fresh db (createdRow userId file newId now)
    userId hfresh rfl
  have h1 := findFirst_updateConv _ newId userId
    (fun c => { c with storagePath := objectKeyFor userId newId file.name,
                       updatedAt := now }) _ (fun c => rfl) (fun c => rfl) h0
  have h2 := findFirst_updateConv _ newId userId
    (fun c => { c with status := Status.failed, errorMessage := some msg,
                       updatedAt := now }) _ (fun c => rfl) (fun c => rfl) h1
  exact ⟨h2, trivial⟩

theorem submit_run_summaryFail (db : DB) (userId : String) (file : AudioFile)
    (newId : String) (t e : String) (now : Nat)
    (ht : fileTypeAllowed file = true) (hs : ¬ file.size > maxSizeBytes)
    (hfresh : ∀ c ∈ db, c.id ≠ newId) :
    findFirst (submit db userId file newId (Except.ok ()) (Except.ok t)
        (Except.error e) now).db newId userId =
      some { createdRow userId file newId now with
             storagePath := objectKeyFor userId newId file.name,
             transcriptText := some t, status := Status.transcribed } ∧
    (submit db userId file newId (Except.ok ()) (Except.ok t)
        (Except.error e) now).res = SubmitOutcome.ok := by
  unfold submit
  simp only [ht, Bool.not_true, Bool.false_eq_true, if_false, hs]
  have h0 := findFirst_append_fresh db (createdRow userId file newId now)
    userId hfresh rfl
  have h1 := findFirst_updateConv _ newId userId
    (fun c => { c with storagePath := objectKeyFor userId newId file.name,
                       updatedAt := now }) _ (fun c => rfl) (fun c => rfl) h0
  have h2 := findFirst_updateConv _ newId userId
    (fun c => { c with transcriptText := some t,
                       status := Status.transcribed,
                       updatedAt := now }) _ (fun c => rfl) (fun c => rfl) h1
  exact ⟨h2, trivial⟩

theorem submit_run_allOk (db : DB) (userId : String) (file : AudioFile)
    (newId : String) (t s : String) (now : Nat)
    (ht : fileTypeAllowed file = true) (hs : ¬ file.size > maxSizeBytes)
    (hfresh : ∀ c ∈ db, c.id ≠ newId) :
    findFirst (submit db userId file newId (Except.ok ()) (Except.ok t)
        (Except.ok s) now).db newId userId =
      some { createdRow userId file newId now with
             storagePath := objectKeyFor userId newId file.name,
             transcriptText := some t, summaryText := some s,
             status := Status.summarized } ∧
    (submit db userId file newId (Except.ok ()) (Except.ok t)
        (Except.ok s) now).res = SubmitOutcome.ok := by
  unfold submit
  simp only [ht, Bool.not_true, Bool.false_eq_true, if_false, hs]
  have h0 := findFirst_append_fresh db (createdRow userId file newId now)
    userId hfresh rfl
  have h1 := findFirst_updateConv _ newId userId
    (fun c => { c with storagePath := objectKeyFor userId newId file.name,
                       updatedAt := now }) _ (fun c => rfl) (fun c => rfl) h0
  have h2 := findFirst_updateConv _ newId userId
    (fun c => { c with transcriptText := some t,
                       status := Status.transcribed,
                       updatedAt := now }) _ (fun c => rfl) (fun c => rfl) h1
  have h3 := findFirst_updateConv _ newId userId
    (fun c => { c with summaryText := some s,
                       status := Status.summarized,
                       updatedAt := now }) _ (fun c => rfl) (fun c => rfl) h2
  exact ⟨h3, trivial⟩

/-! Per-branch characterizations of `reUpload` on an eligible record and a
validated file. -/

theorem reUpload_run_storeFail (db : DB) (id uid : String) (file : AudioFile)
    (e : String) (tRes sRes : CallResult) (now : Nat) (conv : Conversation)
    (hfind : findFirst db id uid = some conv)
    (he : reUploadIneligible conv = false)
    (ht : fileTypeAllowed file = true) (hs : ¬ file.size > maxSizeBytes) :
    reUpload db id uid file (Except.error e) tRes sRes now =
      ⟨db, ReUploadOutcome.storeFailed, true⟩ := by
  unfold reUpload
  rw [hfind]
  simp [he, ht, hs]

theorem reUpload_run_transcribeFail (db : DB) (id uid : String)
    (file : AudioFile) (msg : String) (sRes : CallResult) (now : Nat)
    (conv : Conversation)
    (hfind : findFirst db id uid = some conv)
    (he : reUploadIneligible conv = false)
    (ht : fileTypeAllowed file = true) (hs : ¬ file.size > maxSizeBytes) :
    findFirst (reUpload db id uid file (Except.ok ()) (Except.error msg)
        sRes now).db id uid =
      some { conv with
             originalFilename := file.name,
             storagePath := objectKeyFor uid id file.name,
             mimeType := file.type, sizeBytes := file.size,
             status := Status.failed,
             errorMessage := some ("Transcription failed: " ++ msg),
             updatedAt := now } ∧
    (reUpload db id uid file (Except.ok ()) (Except.error msg) sRes now).res =
      ReUploadOutcome.transcriptionFailed := by
  unfold reUpload
  rw [hfind]
  simp only [he, Bool.false_eq_true, if_false, ht, Bool.not_true, hs]
  have h1 := findFirst_updateConv db id uid
    (fun c => { c with originalFilename := file.name,
                       storagePath := objectKeyFor uid id file.name,
                       mimeType := file.type, sizeBytes := file.size,
                       errorMessage := none, updatedAt := now })
    conv (fun c => rfl) (fun c => rfl) hfind
  have h2 := findFirst_updateConv _ id uid
    (fun c => { c with status := Status.failed,
                       errorMessage := some ("Transcription failed: " ++ msg),
                       updatedAt := now }) _ (fun c => rfl) (fun c => rfl) h1
  exact ⟨h2, by trivial⟩

theorem reUpload_run_summaryFail (db : DB) (id uid : String)
    (file : AudioFile) (t e : String) (now : Nat) (conv : Conversation)
    (hfind : findFirst db id uid = some conv)
    (he : reUploadIneligible conv = false)
    (ht : fileTypeAllowed file = true) (hs : ¬ file.size > maxSizeBytes) :
    findFirst (reUpload db id uid file (Except.ok ()) (Except.ok t)
        (Except.error e) now).db id uid =
      some { conv with
             originalFilename := file.name,
             storagePath := objectKeyFor uid id file.name,
             mimeType := file.type, sizeBytes := file.size,
             transcriptText := some t, status := Status.transcribed,
             errorMessage := none, updatedAt := now } ∧
    (reUpload db id uid file (Except.ok ()) (Except.ok t)
        (Except.error e) now).res = ReUploadOutcome.ok := by
  unfold reUpload
  rw [hfind]
  simp only [he, Bool.false_eq_true, if_false, ht, Bool.not_true, hs]
  have h1 := findFirst_updateConv db id uid
    (fun c => { c with originalFilename := file.name,
                       storagePath := objectKeyFor uid id file.name,
                       mimeType := file.type, sizeBytes := file.size,
                       errorMessage := none, updatedAt := now })
    conv (fun c => rfl) (fun c => rfl) hfind
  have h2 := findFirst_updateConv _ id uid
    (fun c => { c with transcriptText := some t,
                       status := Status.transcribed,
                       updatedAt := now }) _ (fun c => rfl) (fun c => rfl) h1
  exact ⟨h2, by trivial⟩

theorem reUpload_run_allOk (db : DB) (id uid : String)
    (file : AudioFile) (t s : String) (now : Nat) (conv : Conversation)
    (hfind : findFirst db id uid = some conv)
    (he : reUploadIneligible conv = false)
    (ht : fileTypeAllowed file = true) (hs : ¬ file.size > maxSizeBytes) :
    findFirst (reUpload db id uid file (Except.ok ()) (Except.ok t)
        (Except.ok s) now).db id uid =
      some { conv with
             originalFilename := file.name,
             storagePath := objectKeyFor uid id file.name,
             mimeType := file.type, sizeBytes := file.size,
             transcriptText := some t, summaryText := some s,
             status := Status.summarized,
             errorMessage := none, updatedAt := now } ∧
    (reUpload db id uid file (Except.ok ()) (Except.ok t)
        (Except.ok s) now).res = ReUploadOutcome.ok := by
  unfold reUpload
  rw [hfind]
  simp only [he, Bool.false_eq_true, if_false, ht, Bool.not_true, hs]
  have h1 := findFirst_updateConv db id uid
    (fun c => { c with originalFilename := file.name,
                       storagePath := objectKeyFor uid id file.name,
                       mimeType := file.type, sizeBytes := file.size,
                       errorMessage := none, updatedAt := now })
    conv (fun c => rfl) (fun c => rfl) hfind
  have h2 := findFirst_updateConv _ id uid
    (fun c => { c with transcriptText := some t,
                       status := Status.transcribed,
                       updatedAt := now }) _ (fun c => rfl) (fun c => rfl) h1
  have h3 := findFirst_updateConv _ id uid
    (fun c => { c with summaryText := some s,
                       status := Status.summarized,
                       updatedAt := now }) _ (fun c => rfl) (fun c => rfl) h2
  exact ⟨h3, by trivial⟩

/-- On an existing, owned, eligible record the re-upload handler never
answers 404 or the not-eligible 400, whatever the file and the collaborator
outcomes. -/
theorem reUpload_eligible_res (db : DB) (id uid : String) (file : AudioFile)
    (storeRes : Except String Unit) (tRes sRes : CallResult) (now : Nat)
    (conv : Conversation) (hfind : findFirst db id uid = some conv)
    (he : reUploadIneligible conv = false) :
    (reUpload db id uid file storeRes tRes sRes now).res ≠
      ReUploadOutcome.notFound ∧
    (reUpload db id uid file storeRes tRes sRes now).res ≠
      ReUploadOutcome.notEligible := by
  unfold reUpload
  rw [hfind]
  rcases storeRes with e | u <;> rcases tRes with e2 | t <;>
    rcases sRes with e3 | s <;>
    by_cases ht : fileTypeAllowed file <;>
    by_cases hs : file.size > maxSizeBytes <;>
    simp [he, ht, hs]

/-! ## Claim theorems -/

/-- C1, counterexample: on a record with `status = 'initial'` and a
non-empty storage key, the claimed condition `status != 'initial' OR
storageKey != ''` holds, yet the delete handler does not attempt blob
deletion (its guard is a conjunction, not a disjunction). -/
theorem delete_blob_condition_claim_false :
    (deleteCx.status ≠ Status.initial ∨ deleteCx.storagePath ≠ "") ∧
    (deleteConversation [deleteCx] "cx1" "u1").2 =
      DeleteOutcome.deleted false := by
  exact ⟨Or.inr (by decide), by decide⟩

/-- C1, amended: for every delete of an existing owned record, the
database row is removed regardless of status, and blob deletion is
attempted iff `status != 'initial' AND storageKey` is non-empty. -/
theorem deleteConversation_spec (db : DB) (id uid : String)
    (conv : Conversation) (hfind : findFirst db id uid = some conv) :
    (∀ c ∈ (deleteConversation db id uid).1, c.id ≠ id) ∧
    ((deleteConversation db id uid).2 = DeleteOutcome.deleted true ↔
      (conv.status ≠ Status.initial ∧ conv.storagePath ≠ "")) := by
  unfold deleteConversation
  rw [hfind]
  exact ⟨deleteRow_not_mem db id, by simp⟩

/-- Witness for C1's amended theorem at a concrete summarized record. -/
theorem deleteConversation_spec_witness :
    (∀ c ∈ (deleteConversation [summarizedCx] "cx2" "u2").1, c.id ≠ "cx2") ∧
    ((deleteConversation [summarizedCx] "cx2" "u2").2 =
        DeleteOutcome.deleted true ↔
      (summarizedCx.status ≠ Status.initial ∧ summarizedCx.storagePath ≠ "")) :=
  deleteConversation_spec [summarizedCx] "cx2" "u2" summarizedCx (by decide)

/-- C5: whenever regenerate-transcript succeeds on an owned record with a
non-empty storage key, the resulting record has the new transcript text, a
null summary (even if one existed), status `'transcribed'`, and a null
error message. -/
theorem regenerateTranscript_success_spec (db : DB) (id uid : String)
    (conv : Conversation) (t : String) (now : Nat)
    (hfind : findFirst db id uid = some conv)
    (hkey : conv.storagePath ≠ "") :
    (regenerateTranscript db id uid (Except.ok t) now).2 =
      RegenTranscriptOutcome.ok ∧
    findFirst (regenerateTranscript db id uid (Except.ok t) now).1 id uid =
      some { conv with
             transcriptText := some t, summaryText := none,
             status := Status.transcribed, errorMessage := none,
             updatedAt := now } := by
  have hkb : (conv.storagePath == "") = false := by simpa using hkey
  unfold regenerateTranscript
  rw [hfind]
  simp only [hkb, Bool.false_eq_true, if_false]
  exact ⟨by trivial,
    findFirst_updateConv db id uid _ conv (fun c => rfl) (fun c => rfl) hfind⟩

/-- Witness for C5 at a concrete summarized record. -/
theorem regenerateTranscript_success_spec_witness :
    (regenerateTranscript [summarizedCx] "cx2" "u2" (Except.ok "t2") 9).2 =
      RegenTranscriptOutcome.ok ∧
    findFirst (regenerateTranscript [summarizedCx] "cx2" "u2"
        (Except.ok "t2") 9).1 "cx2" "u2" =
      some { summarizedCx with
             transcriptText := some "t2",
             summaryText := none, status := Status.transcribed,
             errorMessage := none, updatedAt := 9 } :=
  regenerateTranscript_success_spec [summarizedCx] "cx2" "u2" summarizedCx
    "t2" 9 (by decide) (by decide)

/-- C9: when regenerate-transcript's transcription call fails, the only
fields written are `status` (to `'failed'`), `errorMessage`, and
`updatedAt`; the previous `transcriptText` and `summaryText` are kept. -/
theorem regenerateTranscript_failure_frame_spec (db : DB) (id uid : String)
    (conv : Conversation) (msg : String) (now : Nat)
    (hfind : findFirst db id uid = some conv)
    (hkey : conv.storagePath ≠ "") :
    (regenerateTranscript db id uid (Except.error msg) now).2 =
      RegenTranscriptOutcome.transcriptionFailed ∧
    findFirst (regenerateTranscript db id uid (Except.error msg) now).1 id uid =
      some { conv with
             status := Status.failed,
             errorMessage := some ("Regeneration failed: " ++ msg),
             updatedAt := now } := by
  have hkb : (conv.storagePath == "") = false := by simpa using hkey
  unfold regenerateTranscript
  rw [hfind]
  simp only [hkb, Bool.false_eq_true, if_false]
  exact ⟨by trivial,
    findFirst_updateConv db id uid _ conv (fun c => rfl) (fun c => rfl) hfind⟩

/-- Witness for C9 at a concrete summarized record: after the failure the
record is `'failed'` but keeps its old transcript and old summary. -/
theorem regenerateTranscript_failure_frame_spec_witness :
    (regenerateTranscript [summarizedCx] "cx2" "u2" (Except.error "boom") 9).2 =
      RegenTranscriptOutcome.transcriptionFailed ∧
    findFirst (regenerateTranscript [summarizedCx] "cx2" "u2"
        (Except.error "boom") 9).1 "cx2" "u2" =
      some { summarizedCx with
             status := Status.failed,
             errorMessage := some ("Regeneration failed: " ++ "boom"),
             updatedAt := 9 } :=
  regenerateTranscript_failure_frame_spec [summarizedCx] "cx2" "u2"
    summarizedCx "boom" 9 (by decide) (by decide)

/-- C10: a record with `status = 'initial'` and a whitespace-only (hence
non-empty) storage key passes both the re-upload eligibility check and the
regenerate-transcript blob-exists check: the two preconditions overlap. -/
theorem preconditions_overlap_spec :
    overlapCx.status = Status.initial ∧ overlapCx.storagePath ≠ "" ∧
    reUploadIneligible overlapCx = false ∧
    (regenerateTranscript [overlapCx] "cx3" "u3" (Except.ok "t") 0).2 =
      RegenTranscriptOutcome.ok ∧
    (reUpload [overlapCx] "cx3" "u3" sampleFile (Except.ok ()) (Except.ok "t")
        (Except.ok "s") 0).res = ReUploadOutcome.ok := by
  decide

/-- C3: a re-upload on an existing owned record proceeds past the
eligibility check iff `status == 'initial'` and `storagePath` is empty or
blank; any other combination is answered with the not-eligible validation
error (and never with 404). -/
theorem reUpload_eligibility_spec (db : DB) (id uid : String)
    (file : AudioFile) (storeRes : Except String Unit)
    (tRes sRes : CallResult) (now : Nat) (conv : Conversation)
    (hfind : findFirst db id uid = some conv) :
    (reUpload db id uid file storeRes tRes sRes now).res ≠
      ReUploadOutcome.notFound ∧
    ((reUpload db id uid file storeRes tRes sRes now).res =
        ReUploadOutcome.notEligible ↔
      ¬(conv.status = Status.initial ∧ jsTrim conv.storagePath = "")) := by
  by_cases he : reUploadIneligible conv
  · have hres : (reUpload db id uid file storeRes tRes sRes now).res =
        ReUploadOutcome.notEligible := by
      unfold reUpload
      rw [hfind]
      simp [he]
    rw [hres]
    refine ⟨by simp, ?_⟩
    constructor
    · intro _ hcond
      have hfalse := (reUploadIneligible_false_iff conv).2 hcond
      rw [he] at hfalse
      cases hfalse
    · intro _
      rfl
  · have he' : reUploadIneligible conv = false := by simpa using he
    have h2 := reUpload_eligible_res db id uid file storeRes tRes sRes now
      conv hfind he'
    refine ⟨h2.1, ?_⟩
    have hcond := (reUploadIneligible_false_iff conv).1 he'
    constructor
    · intro h
      exact absurd h h2.2
    · intro h
      exact absurd hcond h

/-- Witness for C3 at a concrete eligible record. -/
theorem reUpload_eligibility_spec_witness :
    (reUpload [initialCx] "cx4" "u4" sampleFile (Except.ok ()) (Except.ok "t")
        (Except.ok "s") 0).res ≠ ReUploadOutcome.notFound ∧
    ((reUpload [initialCx] "cx4" "u4" sampleFile (Except.ok ()) (Except.ok "t")
        (Except.ok "s") 0).res = ReUploadOutcome.notEligible ↔
      ¬(initialCx.status = Status.initial ∧ jsTrim initialCx.storagePath = "")) :=
  reUpload_eligibility_spec [initialCx] "cx4" "u4" sampleFile (Except.ok ())
    (Except.ok "t") (Except.ok "s") 0 initialCx (by decide)

/-- C8: calling regenerate-summary twice in sequence on a summarized record
with a usable transcript, both summarizer calls succeeding, leaves the
record summarized with the second call's summary text, and the transcript
text unchanged. -/
theorem regenerateSummary_idempotent_spec (db : DB) (id uid : String)
    (conv : Conversation) (s1 s2 : String) (n1 n2 : Nat)
    (hfind : findFirst db id uid = some conv)
    (hstat : conv.status = Status.summarized)
    (htr : transcriptMissing conv.transcriptText = false) :
    (regenerateSummary db id uid (Except.ok s1) n1).2 =
      RegenSummaryOutcome.ok ∧
    (regenerateSummary (regenerateSummary db id uid (Except.ok s1) n1).1 id uid
        (Except.ok s2) n2).2 = RegenSummaryOutcome.ok ∧
    findFirst (regenerateSummary (regenerateSummary db id uid
        (Except.ok s1) n1).1 id uid (Except.ok s2) n2).1 id uid =
      some { conv with
             summaryText := some s2, status := Status.summarized,
             errorMessage := none, updatedAt := n2 } := by
  have e1 : regenerateSummary db id uid (Except.ok s1) n1 =
      (updateConv db id (fun c =>
        { c with summaryText := some s1, status := Status.summarized,
                 errorMessage := none, updatedAt := n1 }),
       RegenSummaryOutcome.ok) := by
    unfold regenerateSummary
    rw [hfind]
    simp only [htr, Bool.false_eq_true, if_false]
  have h1 : findFirst (regenerateSummary db id uid (Except.ok s1) n1).1 id uid =
      some { conv with
             summaryText := some s1, status := Status.summarized,
             errorMessage := none, updatedAt := n1 } := by
    rw [e1]
    exact findFirst_updateConv db id uid _ conv (fun c => rfl) (fun c => rfl)
      hfind
  obtain ⟨db1, hdb1⟩ : ∃ x, (regenerateSummary db id uid (Except.ok s1) n1).1 = x :=
    ⟨_, rfl⟩
  rw [hdb1] at h1
  have htr1 : transcriptMissing ({ conv with
      summaryText := some s1, status := Status.summarized,
      errorMessage := none, updatedAt := n1 } : Conversation).transcriptText =
      false := htr
  have e2 : regenerateSummary db1 id uid (Except.ok s2) n2 =
      (updateConv db1 id (fun c =>
        { c with summaryText := some s2, status := Status.summarized,
                 errorMessage := none, updatedAt := n2 }),
       RegenSummaryOutcome.ok) := by
    unfold regenerateSummary
    rw [h1]
    simp only [htr1, Bool.false_eq_true, if_false]
  have h2 := findFirst_updateConv db1 id uid
    (fun c => { c with summaryText := some s2, status := Status.summarized,
                       errorMessage := none, updatedAt := n2 })
    _ (fun c => rfl) (fun c => rfl) h1
  refine ⟨by rw [e1], ?_, ?_⟩
  · rw [hdb1, e2]
  · rw [hdb1, e2]
    exact h2

/-- Witness for C8 at a concrete summarized record. -/
theorem regenerateSummary_idempotent_spec_witness :
    (regenerateSummary [summarizedCx] "cx2" "u2" (Except.ok "s1") 5).2 =
      RegenSummaryOutcome.ok ∧
    (regenerateSummary (regenerateSummary [summarizedCx] "cx2" "u2"
        (Except.ok "s1") 5).1 "cx2" "u2" (Except.ok "s2") 6).2 =
      RegenSummaryOutcome.ok ∧
    findFirst (regenerateSummary (regenerateSummary [summarizedCx] "cx2" "u2"
        (Except.ok "s1") 5).1 "cx2" "u2" (Except.ok "s2") 6).1 "cx2" "u2" =
      some { summarizedCx with
             summaryText := some "s2", status := Status.summarized,
             errorMessage := none, updatedAt := 6 } :=
  regenerateSummary_idempotent_spec [summarizedCx] "cx2" "u2" summarizedCx
    "s1" "s2" 5 6 (by decide) (by decide) (by decide)

/-- C6: a summarization failure never changes `status`: regenerate-summary
writes nothing at all on failure, and in the upload and re-upload pipelines
a failing summarizer leaves the record at `'transcribed'` (the call still
answers 200). -/
theorem summaryFailure_status_spec :
    (∀ (db : DB) (id uid e : String) (now : Nat),
        (regenerateSummary db id uid (Except.error e) now).1 = db) ∧
    (∀ (db : DB) (uid : String) (file : AudioFile) (newId t e : String)
        (now : Nat),
        fileTypeAllowed file = true → ¬ file.size > maxSizeBytes →
        (∀ c ∈ db, c.id ≠ newId) →
        ∃ conv', findFirst (submit db uid file newId (Except.ok ())
            (Except.ok t) (Except.error e) now).db newId uid = some conv' ∧
          conv'.status = Status.transcribed ∧
          (submit db uid file newId (Except.ok ()) (Except.ok t)
            (Except.error e) now).res = SubmitOutcome.ok) ∧
    (∀ (db : DB) (id uid : String) (file : AudioFile) (t e : String)
        (now : Nat) (conv : Conversation),
        findFirst db id uid = some conv →
        reUploadIneligible conv = false →
        fileTypeAllowed file = true → ¬ file.size > maxSizeBytes →
        ∃ conv', findFirst (reUpload db id uid file (Except.ok ())
            (Except.ok t) (Except.error e) now).db id uid = some conv' ∧
          conv'.status = Status.transcribed ∧
          (reUpload db id uid file (Except.ok ()) (Except.ok t)
            (Except.error e) now).res = ReUploadOutcome.ok) := by
  refine ⟨?_, ?_, ?_⟩
  · intro db id uid e now
    unfold regenerateSummary
    rcases hf : findFirst db id uid with _ | conv
    · rfl
    · by_cases hm : transcriptMissing conv.transcriptText <;> simp [hm]
  · intro db uid file newId t e now ht hs hfresh
    obtain ⟨h1, h2⟩ := submit_run_summaryFail db uid file newId t e now ht hs
      hfresh
    exact ⟨_, h1, rfl, h2⟩
  · intro db id uid file t e now conv hfind he ht hs
    obtain ⟨h1, h2⟩ := reUpload_run_summaryFail db id uid file t e now conv
      hfind he ht hs
    exact ⟨_, h1, rfl, h2⟩

/-- Witness for C6: regenerate-summary failure on a concrete summarized
record; submit and re-upload with a failing summarizer at concrete inputs. -/
theorem summaryFailure_status_spec_witness :
    (regenerateSummary [summarizedCx] "cx2" "u2" (Except.error "e") 7).1 =
      [summarizedCx] ∧
    (∃ conv', findFirst (submit [] "u5" sampleFile "n5" (Except.ok ())
        (Except.ok "t") (Except.error "e") 0).db "n5" "u5" = some conv' ∧
      conv'.status = Status.transcribed ∧
      (submit [] "u5" sampleFile "n5" (Except.ok ()) (Except.ok "t")
        (Except.error "e") 0).res = SubmitOutcome.ok) ∧
    (∃ conv', findFirst (reUpload [initialCx] "cx4" "u4" sampleFile
        (Except.ok ()) (Except.ok "t") (Except.error "e") 0).db "cx4" "u4" =
        some conv' ∧
      conv'.status = Status.transcribed ∧
      (reUpload [initialCx] "cx4" "u4" sampleFile (Except.ok ())
        (Except.ok "t") (Except.error "e") 0).res = ReUploadOutcome.ok) :=
  ⟨summaryFailure_status_spec.1 [summarizedCx] "cx2" "u2" "e" 7,
   summaryFailure_status_spec.2.1 [] "u5" sampleFile "n5" "t" "e" 0
     (by decide) (by decide) (by simp),
   summaryFailure_status_spec.2.2 [initialCx] "cx4" "u4" sampleFile "t" "e" 0
     initialCx (by decide) (by decide) (by decide) (by decide)⟩

/-- C7: every validation failure is rejected before any mutation — an
upload with a disallowed type or an oversized file leaves the table
unchanged and never calls the blob store, and a re-upload on an ineligible
record performs no database or storage write. -/
theorem validation_no_mutation_spec :
    (∀ (db : DB) (uid : String) (file : AudioFile) (newId : String)
        (storeRes : Except String Unit) (tRes sRes : CallResult) (now : Nat),
        (fileTypeAllowed file = false ∨ file.size > maxSizeBytes) →
        (submit db uid file newId storeRes tRes sRes now).db = db ∧
        (submit db uid file newId storeRes tRes sRes now).blobPutAttempted =
          false) ∧
    (∀ (db : DB) (id uid : String) (file : AudioFile)
        (storeRes : Except String Unit) (tRes sRes : CallResult) (now : Nat)
        (conv : Conversation),
        findFirst db id uid = some conv →
        reUploadIneligible conv = true →
        (reUpload db id uid file storeRes tRes sRes now).db = db ∧
        (reUpload db id uid file storeRes tRes sRes now).blobPutAttempted =
          false ∧
        (reUpload db id uid file storeRes tRes sRes now).res =
          ReUploadOutcome.notEligible) := by
  constructor
  · intro db uid file newId storeRes tRes sRes now h
    unfold submit
    by_cases ht : fileTypeAllowed file
    · rcases h with h | h
      · rw [ht] at h
        cases h
      · simp [ht, h]
    · simp [ht]
  · intro db id uid file storeRes tRes sRes now conv hfind he
    unfold reUpload
    rw [hfind]
    simp [he]

/-- Witness for C7: a 30 MB file is rejected with no record created, and a
re-upload on a summarized record is rejected with no write. -/
theorem validation_no_mutation_spec_witness :
    ((submit [] "u6" bigFile "n6" (Except.ok ()) (Except.ok "t")
        (Except.ok "s") 0).db = [] ∧
     (submit [] "u6" bigFile "n6" (Except.ok ()) (Except.ok "t")
        (Except.ok "s") 0).blobPutAttempted = false) ∧
    ((reUpload [summarizedCx] "cx2" "u2" sampleFile (Except.ok ())
        (Except.ok "t") (Except.ok "s") 0).db = [summarizedCx] ∧
     (reUpload [summarizedCx] "cx2" "u2" sampleFile (Except.ok ())
        (Except.ok "t") (Except.ok "s") 0).blobPutAttempted = false ∧
     (reUpload [summarizedCx] "cx2" "u2" sampleFile (Except.ok ())
        (Except.ok "t") (Except.ok "s") 0).res =
       ReUploadOutcome.notEligible) :=
  ⟨validation_no_mutation_spec.1 [] "u6" bigFile "n6" (Except.ok ())
     (Except.ok "t") (Except.ok "s") 0 (Or.inr (by decide)),
   validation_no_mutation_spec.2 [summarizedCx] "cx2" "u2" sampleFile
     (Except.ok ()) (Except.ok "t") (Except.ok "s") 0 summarizedCx
     (by decide) (by decide)⟩

/-- C4: every valid submit ends with the operated record in
`status ∈ {failed, transcribed, summarized}` with a non-empty storage key,
or — exactly when the blob store failed — in `status = 'initial'` with an
empty key, the row left exactly as created and the call reporting
failure. -/
theorem submit_outcomes_spec (db : DB) (userId : String) (file : AudioFile)
    (newId : String) (storeRes : Except String Unit) (tRes sRes : CallResult)
    (now : Nat)
    (ht : fileTypeAllowed file = true) (hs : ¬ file.size > maxSizeBytes)
    (hfresh : ∀ c ∈ db, c.id ≠ newId) :
    ∃ conv', findFirst (submit db userId file newId storeRes tRes sRes now).db
        newId userId = some conv' ∧
      (((conv'.status = Status.failed ∨ conv'.status = Status.transcribed ∨
         conv'.status = Status.summarized) ∧ conv'.storagePath ≠ "") ∨
       (conv'.status = Status.initial ∧ conv'.storagePath = "" ∧
        conv' = createdRow userId file newId now ∧
        (submit db userId file newId storeRes tRes sRes now).res =
          SubmitOutcome.storeFailed)) := by
  rcases storeRes with e | u
  · obtain ⟨h1, h2⟩ := submit_run_storeFail db userId file newId e tRes sRes
      now ht hs hfresh
    exact ⟨_, h1, Or.inr ⟨rfl, rfl, rfl, h2⟩⟩
  · cases u
    rcases tRes with msg | t
    · obtain ⟨h1, h2⟩ := submit_run_transcribeFail db userId file newId msg
        sRes now ht hs hfresh
      exact ⟨_, h1, Or.inl ⟨Or.inl rfl, objectKeyFor_ne_empty _ _ _⟩⟩
    · rcases sRes with e2 | s
      · obtain ⟨h1, h2⟩ := submit_run_summaryFail db userId file newId t e2
          now ht hs hfresh
        exact ⟨_, h1, Or.inl ⟨Or.inr (Or.inl rfl), objectKeyFor_ne_empty _ _ _⟩⟩
      · obtain ⟨h1, h2⟩ := submit_run_allOk db userId file newId t s now ht hs
          hfresh
        exact ⟨_, h1, Or.inl ⟨Or.inr (Or.inr rfl), objectKeyFor_ne_empty _ _ _⟩⟩

/-- Witness for C4: a concrete submit whose blob store fails. -/
theorem submit_outcomes_spec_witness :
    ∃ conv', findFirst (submit [] "u7" sampleFile "n7" (Except.error "down")
        (Except.ok "t") (Except.ok "s") 0).db "n7" "u7" = some conv' ∧
      (((conv'.status = Status.failed ∨ conv'.status = Status.transcribed ∨
         conv'.status = Status.summarized) ∧ conv'.storagePath ≠ "") ∨
       (conv'.status = Status.initial ∧ conv'.storagePath = "" ∧
        conv' = createdRow "u7" sampleFile "n7" 0 ∧
        (submit [] "u7" sampleFile "n7" (Except.error "down") (Except.ok "t")
          (Except.ok "s") 0).res = SubmitOutcome.storeFailed)) :=
  submit_outcomes_spec [] "u7" sampleFile "n7" (Except.error "down")
    (Except.ok "t") (Except.ok "s") 0 (by decide) (by decide) (by simp)

/-- C2, counterexample: the invariant "summaryText is non-null only when
status == 'summarized'" holds of a summarized record, but after a failing
regenerate-transcript the record is `'failed'` and still carries its old
non-null summary — the invariant does not survive that failure path. -/
theorem summaryInvariant_claim_false :
    summaryInvariant summarizedCx ∧
    findFirst (regenerateTranscript [summarizedCx] "cx2" "u2"
        (Except.error "oops") 8).1 "cx2" "u2" =
      some { summarizedCx with
             status := Status.failed,
             errorMessage := some ("Regeneration failed: " ++ "oops"),
             updatedAt := 8 } ∧
    ¬ summaryInvariant { summarizedCx with
             status := Status.failed,
             errorMessage := some ("Regeneration failed: " ++ "oops"),
             updatedAt := 8 } := by
  refine ⟨by decide, by decide, by decide⟩

/-- C2, amended: the predicate "summaryText is non-null only when
status == 'summarized'" holds of the operated record after submit (all
paths), reUpload (all paths, given it held before), regenerateSummary
(all paths, given it held before), and regenerateTranscript success; the
regenerateTranscript failure path, however, writes only `status`,
`errorMessage` and `updatedAt`, preserving a previous non-null
`summaryText` alongside `status = 'failed'`. -/
theorem summaryInvariant_after_ops_spec :
    (∀ (db : DB) (userId : String) (file : AudioFile) (newId : String)
        (storeRes : Except String Unit) (tRes sRes : CallResult) (now : Nat),
        (∀ c ∈ db, c.id ≠ newId) →
        ∀ conv', findFirst (submit db userId file newId storeRes tRes sRes
            now).db newId userId = some conv' → summaryInvariant conv') ∧
    (∀ (db : DB) (id uid : String) (file : AudioFile)
        (storeRes : Except String Unit) (tRes sRes : CallResult) (now : Nat)
        (conv : Conversation),
        findFirst db id uid = some conv → summaryInvariant conv →
        ∀ conv', findFirst (reUpload db id uid file storeRes tRes sRes
            now).db id uid = some conv' → summaryInvariant conv') ∧
    (∀ (db : DB) (id uid : String) (sRes : CallResult) (now : Nat)
        (conv : Conversation),
        findFirst db id uid = some conv → summaryInvariant conv →
        ∀ conv', findFirst (regenerateSummary db id uid sRes now).1 id uid =
          some conv' → summaryInvariant conv') ∧
    (∀ (db : DB) (id uid t : String) (now : Nat) (conv : Conversation),
        findFirst db id uid = some conv → conv.storagePath ≠ "" →
        ∀ conv', findFirst (regenerateTranscript db id uid (Except.ok t)
            now).1 id uid = some conv' → summaryInvariant conv') ∧
    (∀ (db : DB) (id uid msg : String) (now : Nat) (conv : Conversation),
        findFirst db id uid = some conv → conv.storagePath ≠ "" →
        findFirst (regenerateTranscript db id uid (Except.error msg) now).1
            id uid =
          some { conv with
                 status := Status.failed,
                 errorMessage := some ("Regeneration failed: " ++ msg),
                 updatedAt := now }) := by
  refine ⟨?_, ?_, ?_, ?_, ?_⟩
  · -- submit
    intro db userId file newId storeRes tRes sRes now hfresh conv' hfind'
    by_cases ht : fileTypeAllowed file
    · by_cases hsz : file.size > maxSizeBytes
      · have hdb : (submit db userId file newId storeRes tRes sRes now).db =
            db := by
          unfold submit
          simp [ht, hsz]
        rw [hdb] at hfind'
        obtain ⟨hmem, hid, -⟩ := findFirst_mem_id db newId userId conv' hfind'
        exact absurd hid (hfresh conv' hmem)
      · rcases storeRes with e | u
        · obtain ⟨h1, -⟩ := submit_run_storeFail db userId file newId e tRes
            sRes now ht hsz hfresh
          rw [h1] at hfind'
          obtain rfl := Option.some.inj hfind'
          exact fun hcontra => absurd rfl hcontra
        · cases u
          rcases tRes with msg | t
          · obtain ⟨h1, -⟩ := submit_run_transcribeFail db userId file newId
              msg sRes now ht hsz hfresh
            rw [h1] at hfind'
            obtain rfl := Option.some.inj hfind'
            exact fun hcontra => absurd rfl hcontra
          · rcases sRes with e2 | s
            · obtain ⟨h1, -⟩ := submit_run_summaryFail db userId file newId t
                e2 now ht hsz hfresh
              rw [h1] at hfind'
              obtain rfl := Option.some.inj hfind'
              exact fun hcontra => absurd rfl hcontra
            · obtain ⟨h1, -⟩ := submit_run_allOk db userId file newId t s now
                ht hsz hfresh
              rw [h1] at hfind'
              obtain rfl := Option.some.inj hfind'
              exact fun _ => rfl
    · have hdb : (submit db userId file newId storeRes tRes sRes now).db =
          db := by
        unfold submit
        simp [ht]
      rw [hdb] at hfind'
      obtain ⟨hmem, hid, -⟩ := findFirst_mem_id db newId userId conv' hfind'
      exact absurd hid (hfresh conv' hmem)
  · -- reUpload
    intro db id uid file storeRes tRes sRes now conv hfind hinv conv' hfind'
    by_cases he : reUploadIneligible conv
    · have hdb : (reUpload db id uid file storeRes tRes sRes now).db = db := by
        unfold reUpload
        rw [hfind]
        simp [he]
      rw [hdb, hfind] at hfind'
      obtain rfl := Option.some.inj hfind'
      exact hinv
    · have he' : reUploadIneligible conv = false := by simpa using he
      have hstat : conv.status = Status.initial :=
        ((reUploadIneligible_false_iff conv).1 he').1
      have hnone : conv.summaryText = none := by
        by_contra hne
        have hsumm := hinv hne
        rw [hstat] at hsumm
        cases hsumm
      by_cases ht : fileTypeAllowed file
      · by_cases hsz : file.size > maxSizeBytes
        · have hdb : (reUpload db id uid file storeRes tRes sRes now).db =
              db := by
            unfold reUpload
            rw [hfind]
            simp [he', ht, hsz]
          rw [hdb, hfind] at hfind'
          obtain rfl := Option.some.inj hfind'
          exact hinv
        · rcases storeRes with e | u
          · have hrun := reUpload_run_storeFail db id uid file e tRes sRes now
              conv hfind he' ht hsz
            have hdb : (reUpload db id uid file (Except.error e) tRes sRes
                now).db = db := by rw [hrun]
            rw [hdb, hfind] at hfind'
            obtain rfl := Option.some.inj hfind'
            exact hinv
          · cases u
            rcases tRes with msg | t
            · obtain ⟨h1, -⟩ := reUpload_run_transcribeFail db id uid file msg
                sRes now conv hfind he' ht hsz
              rw [h1] at hfind'
              obtain rfl := Option.some.inj hfind'
              exact fun hcontra => absurd hnone hcontra
            · rcases sRes with e2 | s
              · obtain ⟨h1, -⟩ := reUpload_run_summaryFail db id uid file t e2
                  now conv hfind he' ht hsz
                rw [h1] at hfind'
                obtain rfl := Option.some.inj hfind'
                exact fun hcontra => absurd hnone hcontra
              · obtain ⟨h1, -⟩ := reUpload_run_allOk db id uid file t s now
                  conv hfind he' ht hsz
                rw [h1] at hfind'
                obtain rfl := Option.some.inj hfind'
                exact fun _ => rfl
      · have hdb : (reUpload db id uid file storeRes tRes sRes now).db =
            db := by
          unfold reUpload
          rw [hfind]
          simp [he', ht]
        rw [hdb, hfind] at hfind'
        obtain rfl := Option.some.inj hfind'
        exact hinv
  · -- regenerateSummary
    intro db id uid sRes now conv hfind hinv conv' hfind'
    by_cases hm : transcriptMissing conv.transcriptText
    · have hdb : (regenerateSummary db id uid sRes now).1 = db := by
        unfold regenerateSummary
        rw [hfind]
        simp [hm]
      rw [hdb, hfind] at hfind'
      obtain rfl := Option.some.inj hfind'
      exact hinv
    · rcases sRes with e | s
      · have hdb : (regenerateSummary db id uid (Except.error e) now).1 =
            db := by
          unfold regenerateSummary
          rw [hfind]
          simp [hm]
        rw [hdb, hfind] at hfind'
        obtain rfl := Option.some.inj hfind'
        exact hinv
      · have e1 : regenerateSummary db id uid (Except.ok s) now =
            (updateConv db id (fun c =>
              { c with summaryText := some s, status := Status.summarized,
                       errorMessage := none, updatedAt := now }),
             RegenSummaryOutcome.ok) := by
          unfold regenerateSummary
          rw [hfind]
          simp [hm]
        have h1 := findFirst_updateConv db id uid
          (fun c => { c with summaryText := some s,
                             status := Status.summarized,
                             errorMessage := none, updatedAt := now })
          conv (fun c => rfl) (fun c => rfl) hfind
        rw [e1] at hfind'
        rw [h1] at hfind'
        obtain rfl := Option.some.inj hfind'
        exact fun _ => rfl
  · -- regenerateTranscript, success
    intro db id uid t now conv hfind hkey conv' hfind'
    have hkb : (conv.storagePath == "") = false := by simpa using hkey
    have e1 : regenerateTranscript db id uid (Except.ok t) now =
        (updateConv db id (fun c =>
          { c with transcriptText := some t, summaryText := none,
                   status := Status.transcribed, errorMessage := none,
                   updatedAt := now }), RegenTranscriptOutcome.ok) := by
      unfold regenerateTranscript
      rw [hfind]
      simp only [hkb, Bool.false_eq_true, if_false]
    have h1 := findFirst_updateConv db id uid
      (fun c => { c with transcriptText := some t, summaryText := none,
                         status := Status.transcribed, errorMessage := none,
                         updatedAt := now })
      conv (fun c => rfl) (fun c => rfl) hfind
    rw [e1] at hfind'
    rw [h1] at hfind'
    obtain rfl := Option.some.inj hfind'
    exact fun hcontra => absurd rfl hcontra
  · -- regenerateTranscript, failure: summary preserved
    intro db id uid msg now conv hfind hkey
    have hkb : (conv.storagePath == "") = false := by simpa using hkey
    unfold regenerateTranscript
    rw [hfind]
    simp only [hkb, Bool.false_eq_true, if_false]
    exact findFirst_updateConv db id uid _ conv (fun c => rfl) (fun c => rfl)
      hfind

/-- Witness for C2's amended theorem: each operation applied at a concrete
record with its hypotheses discharged. -/
theorem summaryInvariant_after_ops_spec_witness :
    summaryInvariant { createdRow "w1" sampleFile "m1" 0 with
      storagePath := objectKeyFor "w1" "m1" sampleFile.name,
      transcriptText := some "t", summaryText := some "s",
      status := Status.summarized } ∧
    summaryInvariant { initialCx with
      originalFilename := sampleFile.name,
      storagePath := objectKeyFor "u4" "cx4" sampleFile.name,
      mimeType := sampleFile.type, sizeBytes := sampleFile.size,
      transcriptText := some "t2", summaryText := some "s2",
      status := Status.summarized, errorMessage := none, updatedAt := 1 } ∧
    summaryInvariant { summarizedCx with
      summaryText := some "s9", status := Status.summarized,
      errorMessage := none, updatedAt := 2 } ∧
    summaryInvariant { summarizedCx with
      transcriptText := some "t9", summaryText := none,
      status := Status.transcribed, errorMessage := none, updatedAt := 3 } ∧
    findFirst (regenerateTranscript [summarizedCx] "cx2" "u2"
        (Except.error "m") 4).1 "cx2" "u2" =
      some { summarizedCx with
             status := Status.failed,
             errorMessage := some ("Regeneration failed: " ++ "m"),
             updatedAt := 4 } :=
  ⟨summaryInvariant_after_ops_spec.1 [] "w1" sampleFile "m1" (Except.ok ())
     (Except.ok "t") (Except.ok "s") 0 (by simp) _ (by decide),
   summaryInvariant_after_ops_spec.2.1 [initialCx] "cx4" "u4" sampleFile
     (Except.ok ()) (Except.ok "t2") (Except.ok "s2") 1 initialCx (by decide)
     (by decide) _ (by decide),
   summaryInvariant_after_ops_spec.2.2.1 [summarizedCx] "cx2" "u2"
     (Except.ok "s9") 2 summarizedCx (by decide) (by decide) _ (by decide),
   summaryInvariant_after_ops_spec.2.2.2.1 [summarizedCx] "cx2" "u2" "t9" 3
     summarizedCx (by decide) (by decide) _ (by decide),
   summaryInvariant_after_ops_spec.2.2.2.2 [summarizedCx] "cx2" "u2" "m" 4
     summarizedCx (by decide) (by decide)⟩

end Parle
